import Mathlib

/-!
# Verification of the kiut-realtime session relay

Shallow embedding of the Go relay server (`src/cmd/main.go`, the richest
revision, plus the earlier revisions in `src/unnamed/part_001` and
`src/unnamed/part_002` where a claim refers to them).

The server relays audio between a Twilio telephony leg (reached through the
AWS API Gateway management API, keyed by `connectionID`) and an OpenAI
realtime WebSocket backend.  Mutable process state consists of two maps:
`clients : map[string]*websocket.Conn` (the Session Registry) and
`connectionToStreamSID : map[string]string` (the Stream Context Store).

Modelling conventions:
* Go maps become association lists with a single binding per key
  (`alistInsert` removes any previous binding before consing).
* A backend connection handle (`*websocket.Conn`) becomes a `Nat` drawn from
  a fresh-handle counter in the state; `Close()` calls are recorded in
  `closedHandles` so that leak claims are expressible.
* Network effects (writes to the backend socket, posts to the API gateway)
  are returned as explicit output lists rather than performed.
* `json.Unmarshal` of the listener's incoming bytes is modelled on a small
  JSON value type, with Go's semantics for a struct holding string fields:
  non-object input fails, an absent or `null` field leaves the zero value
  `""`, a field of the wrong type fails.
-/

namespace KiutRealtime

/-- Identifier of a client connection (AWS API Gateway connection id). -/
abbrev ConnectionID := String

/-- Backend connection handles (`*websocket.Conn`) are numbered by creation
order. -/
abbrev Handle := Nat

/-! ## Association-list model of Go maps -/

/-- Go map lookup `m[k]`: first (and only) binding for `k`. -/
def alistLookup {α : Type} : List (String × α) → String → Option α
  | [], _ => none
  | (k, v) :: rest, key => if key = k then some v else alistLookup rest key

/-- Go `delete(m, k)`: drops every binding for `k`. -/
def alistRemove {α : Type} : List (String × α) → String → List (String × α)
  | [], _ => []
  | (k', v) :: rest, k =>
      if k' = k then alistRemove rest k else (k', v) :: alistRemove rest k

/-- Go map assignment `m[k] = v`: replaces any existing binding. -/
def alistInsert {α : Type} (m : List (String × α)) (k : String) (v : α) :
    List (String × α) :=
  (k, v) :: alistRemove m k

theorem alistLookup_insert {α : Type} (m : List (String × α)) (k : String)
    (v : α) : alistLookup (alistInsert m k v) k = some v := by
  simp [alistInsert, alistLookup]

theorem alistLookup_remove {α : Type} (m : List (String × α)) (k : String) :
    alistLookup (alistRemove m k) k = none := by
  induction m with
  | nil => rfl
  | cons p rest ih =>
    obtain ⟨k', v⟩ := p
    by_cases hk : k' = k
    · simpa [alistRemove, hk] using ih
    · have hne : ¬ (k = k') := fun hh => hk hh.symm
      simpa [alistRemove, hk, alistLookup, hne] using ih

theorem alistLookup_remove_ne {α : Type} (m : List (String × α))
    (k k' : String) (h : k' ≠ k) :
    alistLookup (alistRemove m k) k' = alistLookup m k' := by
  induction m with
  | nil => rfl
  | cons p rest ih =>
    obtain ⟨q, v⟩ := p
    by_cases hk : q = k
    · have hne : ¬ (k' = q) := by rw [hk]; exact h
      simpa [alistRemove, hk, alistLookup, hne, h] using ih
    · by_cases hkk : k' = q
      · simp [alistRemove, hk, alistLookup, hkk]
      · simpa [alistRemove, hk, alistLookup, hkk] using ih

theorem alistLookup_insert_ne {α : Type} (m : List (String × α))
    (k k' : String) (v : α) (h : k' ≠ k) :
    alistLookup (alistInsert m k v) k' = alistLookup m k' := by
  show (if k' = k then some v else alistLookup (alistRemove m k) k')
      = alistLookup m k'
  rw [if_neg h]
  exact alistLookup_remove_ne m k k' h

theorem alistRemove_of_lookup_none {α : Type} (m : List (String × α))
    (k : String) (h : alistLookup m k = none) : alistRemove m k = m := by
  induction m with
  | nil => rfl
  | cons p rest ih =>
    obtain ⟨q, v⟩ := p
    by_cases hk : k = q
    · simp [alistLookup, hk] at h
    · simp only [alistLookup, hk, if_false] at h
      have hne : ¬ (q = k) := fun hh => hk hh.symm
      simp [alistRemove, hne, ih h]

theorem alistRemove_remove {α : Type} (m : List (String × α)) (k : String) :
    alistRemove (alistRemove m k) k = alistRemove m k :=
  alistRemove_of_lookup_none _ _ (alistLookup_remove m k)

/-! ## Wire-format records (`src/cmd/main.go` struct declarations) -/

/-- Go struct `SessionTranscription`. -/
structure SessionTranscription where
  model : String
deriving Repr, DecidableEq

/-- Go struct `OpenAISession`. -/
structure OpenAISession where
  instructions : String
  inputAudioFormat : String
  outputAudioFormat : String
  inputAudioTranscription : Option SessionTranscription
deriving Repr, DecidableEq

/-- Go struct `SessionUpdate`, the configuration event written once at
session start. -/
structure SessionUpdate where
  type : String
  session : OpenAISession
deriving Repr, DecidableEq

/-- Go struct `GenericEvent`: only the `type` tag of a backend frame. -/
structure GenericEvent where
  type : String
deriving Repr, DecidableEq

/-- Go struct `AudioEvent`: a backend-bound `input_audio_buffer.append`. -/
structure AudioEvent where
  type : String
  audio : String
deriving Repr, DecidableEq

/-- Go struct `AudioDeltaEvent`: the `delta` payload of a backend frame. -/
structure AudioDeltaEvent where
  delta : String
deriving Repr, DecidableEq

/-- Go struct `TwilioMediaInfo`. -/
structure TwilioMediaInfo where
  track : String
  chunk : String
  timestamp : String
  payload : String
deriving Repr, DecidableEq

/-- Go struct `TwilioMediaEvent`. -/
structure TwilioMediaEvent where
  event : String
  streamSID : String
  media : TwilioMediaInfo
deriving Repr, DecidableEq

/-- Go struct `TwilioMediaGatewayEvent`: body plus connection id, as posted
by the gateway to `/msg`.  `defaultHandler` first unmarshals the same bytes
as a `TwilioGatewayEvent` (event and streamSid only) and, for `"media"`
frames, re-unmarshals them as this type; both views are projections of this
record, so it is the handler's input here. -/
structure TwilioMediaGatewayEvent where
  body : TwilioMediaEvent
  connectionID : ConnectionID
deriving Repr, DecidableEq

/-- The fixed `session.update` literal built by `setupServerConfigs`. -/
def setupSessionUpdate : SessionUpdate :=
  { type := "session.update"
    session :=
      { instructions := "Eres un asistente de ventas para una aerolínea. Eres tajante y conciso. Te restringes únicamente a responder sus preguntas asociadas a sus viajes, o lo guías a ese tipo de conversación."
        inputAudioFormat := "g711_ulaw"
        outputAudioFormat := "g711_ulaw"
        inputAudioTranscription := none } }

/-- `createTwilioMediaEvent` (src/cmd/main.go:136): wraps an audio delta in
a `"media"` telephony frame, leaving the other media fields at their Go zero
value `""`. -/
def createTwilioMediaEvent (streamSID : String) (audioDelta : AudioDeltaEvent) :
    TwilioMediaEvent :=
  { event := "media"
    streamSID := streamSID
    media := { track := "", chunk := "", timestamp := "", payload := audioDelta.delta } }

/-- `twilioToOpenAIEvent` (src/cmd/main.go:323): maps a `"media"` frame's
payload unchanged into an `input_audio_buffer.append` backend event. -/
def twilioToOpenAIEvent (event : TwilioMediaEvent) : AudioEvent :=
  { type := "input_audio_buffer.append", audio := event.media.payload }

/-- Exact bytes produced by Go's `json.Marshal`/`WriteJSON` for an
`AudioEvent` (struct field order, no omitted fields); base64 payloads need
no escaping. -/
def marshalAudioEvent (e : AudioEvent) : String :=
  "\x7b\"type\":\"" ++ e.type ++ "\",\"audio\":\"" ++ e.audio ++ "\"\x7d"

/-! ## JSON values and `json.Unmarshal`

`handleEvent` unmarshals the raw bytes read from the backend twice: once
into `GenericEvent` and, for `response.audio.delta` frames, once into
`AudioDeltaEvent`.  We model the bytes as either invalid JSON or a parsed
JSON value, and each unmarshal with Go's rules for a struct of string
fields: the value must be an object; an absent or `null` field leaves the
zero value `""`; a present field of non-string type is an error. -/

/-- A JSON value. -/
inductive JValue where
  | jnull : JValue
  | jbool : Bool → JValue
  | jnum : Int → JValue
  | jstr : String → JValue
  | jarr : List JValue → JValue
  | jobj : List (String × JValue) → JValue

/-- Bytes arriving from the backend socket: either not valid JSON at all,
or a JSON value. -/
inductive RawMessage where
  | invalid : RawMessage
  | value : JValue → RawMessage

/-- Field lookup with Go's duplicate-key rule (the last occurrence wins). -/
def jfield : List (String × JValue) → String → Option JValue
  | [], _ => none
  | (k, v) :: rest, key =>
      match jfield rest key with
      | some v' => some v'
      | none => if k = key then some v else none

/-- Decode one string-typed struct field named `name`. -/
def unmarshalStringField (fields : List (String × JValue)) (name : String) :
    Option String :=
  match jfield fields name with
  | none => some ""
  | some JValue.jnull => some ""
  | some (JValue.jstr s) => some s
  | some _ => none

/-- `json.Unmarshal(message, &GenericEvent{})`. -/
def unmarshalGenericEvent : RawMessage → Option GenericEvent
  | RawMessage.value (JValue.jobj fields) =>
      (unmarshalStringField fields "type").map GenericEvent.mk
  | _ => none

/-- `json.Unmarshal(message, &AudioDeltaEvent{})`. -/
def unmarshalAudioDeltaEvent : RawMessage → Option AudioDeltaEvent
  | RawMessage.value (JValue.jobj fields) =>
      (unmarshalStringField fields "delta").map AudioDeltaEvent.mk
  | _ => none

/-! ## Server state

The process's mutable state: the two global maps, a counter supplying fresh
backend handles (each successful `websocket.DefaultDialer.Dial` yields the
next number), and the set of handles on which `Close()` has been called, so
that handle-leak claims are expressible. -/

structure ServerState where
  clients : List (ConnectionID × Handle)
  connectionToStreamSID : List (ConnectionID × String)
  nextHandle : Handle
  closedHandles : List Handle
deriving Repr, DecidableEq

/-- State at process start: both maps empty, no handle ever created. -/
def initialState : ServerState :=
  { clients := [], connectionToStreamSID := [], nextHandle := 0,
    closedHandles := [] }

/-- Outcome of `websocket.DefaultDialer.Dial`: success, or failure with the
HTTP status code of the handshake response. -/
inductive DialResult where
  | ok : DialResult
  | fail : Int → DialResult
deriving Repr, DecidableEq

/-- The only error `connectToOpenAI` can return: `setupServerConfigs`
discards `WriteJSON`'s error and always returns nil, so the branch after it
is dead and only the dial failure survives. -/
inductive ConnectError where
  | dialFailed : Int → ConnectError
deriving Repr, DecidableEq

structure ConnectOutcome where
  state : ServerState
  result : Option ConnectError
  configWrites : List (Handle × SessionUpdate)
  listenerStarted : Option (ConnectionID × Handle)
deriving Repr, DecidableEq

/-- `connectToOpenAI` (src/cmd/main.go:201).  On dial failure it returns an
error having touched nothing.  On success it stores the new handle under
`connectionID` — overwriting, and NOT closing, any previous handle for that
id — writes the `session.update` configuration event to the new socket, and
starts the listener goroutine. -/
def connectToOpenAI (s : ServerState) (connectionID : ConnectionID)
    (dial : DialResult) : ConnectOutcome :=
  match dial with
  | DialResult.fail code => ⟨s, some (ConnectError.dialFailed code), [], none⟩
  | DialResult.ok =>
      let h := s.nextHandle
      let s1 := { s with
        clients := alistInsert s.clients connectionID h
        nextHandle := h + 1 }
      ⟨s1, none, [(h, setupSessionUpdate)], some (connectionID, h)⟩

/-- Go struct `SimpleContext`: the request body of `/connect` and
`/disconnect`. -/
structure SimpleContext where
  connectionID : ConnectionID
deriving Repr, DecidableEq

structure ConnectHandlerOutcome where
  state : ServerState
  status : Nat
  configWrites : List (Handle × SessionUpdate)
  listenerStarted : Option (ConnectionID × Handle)
deriving Repr, DecidableEq

/-- `connectHandler` (src/cmd/main.go:237), POST path.  `body = none`
models a request whose JSON fails to decode (→ 400); a dial failure maps to
410 (`StatusGone`); success to 200. -/
def connectHandler (s : ServerState) (body : Option SimpleContext)
    (dial : DialResult) : ConnectHandlerOutcome :=
  match body with
  | none => ⟨s, 400, [], none⟩
  | some data =>
      let o := connectToOpenAI s data.connectionID dial
      match o.result with
      | some _ => ⟨o.state, 410, o.configWrites, o.listenerStarted⟩
      | none => ⟨o.state, 200, o.configWrites, o.listenerStarted⟩

/-- `disconnectHandler` (src/cmd/main.go:266), DELETE path.  Closes and
removes the client entry when present, then removes the streamSID binding
when present; unconditionally answers 200. -/
def disconnectHandler (s : ServerState) (body : Option SimpleContext) :
    ServerState × Nat :=
  match body with
  | none => (s, 400)
  | some data =>
      let id := data.connectionID
      let s1 :=
        match alistLookup s.clients id with
        | some h =>
            { s with clients := alistRemove s.clients id
                     closedHandles := h :: s.closedHandles }
        | none => s
      let s2 :=
        match alistLookup s1.connectionToStreamSID id with
        | some _ =>
            { s1 with connectionToStreamSID :=
                alistRemove s1.connectionToStreamSID id }
        | none => s1
      (s2, 200)

/-- `forwardMessageToOpenAI`'s only modelled error: no registered client.
The socket write itself is recorded in `backendWrites`; its own possible
network failure is orthogonal to every claim and not modelled. -/
inductive ForwardError where
  | clientNotFound : ConnectionID → ForwardError
deriving Repr, DecidableEq

structure ForwardOutcome where
  result : Option ForwardError
  backendWrites : List (Handle × AudioEvent)
deriving Repr, DecidableEq

/-- `forwardMessageToOpenAI` (src/cmd/main.go:301): look up the backend
handle under the lock (released before I/O), then `WriteJSON` the event to
it; error if the id has no registered client.  The streamSID map is never
consulted here. -/
def forwardMessageToOpenAI (s : ServerState) (connectionID : ConnectionID)
    (event : AudioEvent) : ForwardOutcome :=
  match alistLookup s.clients connectionID with
  | none => ⟨some (ForwardError.clientNotFound connectionID), []⟩
  | some h => ⟨none, [(h, event)]⟩

/-- `processMediaEvent` (src/cmd/main.go:331). -/
def processMediaEvent (s : ServerState) (connectionID : ConnectionID)
    (event : TwilioMediaEvent) : ForwardOutcome :=
  forwardMessageToOpenAI s connectionID (twilioToOpenAIEvent event)

structure MsgHandlerOutcome where
  state : ServerState
  status : Nat
  backendWrites : List (Handle × AudioEvent)
deriving Repr, DecidableEq

/-- `defaultHandler` (src/cmd/main.go:344), POST path.  `body = none`
models bytes that fail either of the two unmarshals (both answer 400 with
no state change and no writes).  A `"start"` frame binds the streamSID
unconditionally; a non-`"media"`, non-`"start"` frame is a 200 no-op; a
`"media"` frame is forwarded via `processMediaEvent`, answering 410 when
that fails and 200 otherwise. -/
def defaultHandler (s : ServerState) (body : Option TwilioMediaGatewayEvent) :
    MsgHandlerOutcome :=
  match body with
  | none => ⟨s, 400, []⟩
  | some data =>
      let connectionID := data.connectionID
      let ev := data.body
      if ev.event = "start" then
        ⟨{ s with connectionToStreamSID :=
            alistInsert s.connectionToStreamSID connectionID ev.streamSID },
          200, []⟩
      else if ev.event = "media" then
        let o := processMediaEvent s connectionID ev
        match o.result with
        | some _ => ⟨s, 410, o.backendWrites⟩
        | none => ⟨s, 200, o.backendWrites⟩
      else ⟨s, 200, []⟩

/-- Outcome of one `PostToConnection` call as reported by the AWS gateway:
success, the client connection is gone, or some other (transient)
failure. -/
inductive GatewayResult where
  | ok : GatewayResult
  | gone : GatewayResult
  | transientFailure : GatewayResult
deriving Repr, DecidableEq

/-- `sendMessageToClient` (src/cmd/main.go:406): any non-nil
`PostToConnection` error is wrapped in one generic formatted error string;
the gone/transient distinction survives only inside that text (`%v`), never
as a value a caller branches on.  The model keeps the cause as the error
payload; what matters for the claims is that `handleEvent` ignores it. -/
def sendMessageToClient (gw : GatewayResult) : Option GatewayResult :=
  match gw with
  | GatewayResult.ok => none
  | e => some e

structure ListenStep where
  state : ServerState
  delivered : List (ConnectionID × TwilioMediaEvent)
deriving Repr, DecidableEq

/-- `handleEvent` (src/cmd/main.go:146): unmarshal the frame's type tag
(drop on error), drop anything that is not `response.audio.delta`,
unmarshal the delta (drop on error), look up the streamSID (drop silently
when unbound), otherwise translate and post to the gateway.  `delivered`
records the `PostToConnection` call; a delivery error is logged and
otherwise ignored — the function returns without touching any state either
way. -/
def handleEvent (s : ServerState) (gw : GatewayResult)
    (connectionID : ConnectionID) (message : RawMessage) : ListenStep :=
  match unmarshalGenericEvent message with
  | none => ⟨s, []⟩
  | some event =>
      if event.type = "response.audio.delta" then
        match unmarshalAudioDeltaEvent message with
        | none => ⟨s, []⟩
        | some audioDelta =>
            match alistLookup s.connectionToStreamSID connectionID with
            | some streamSID =>
                let twilioMediaEvent := createTwilioMediaEvent streamSID audioDelta
                match sendMessageToClient gw with
                | some _ => ⟨s, [(connectionID, twilioMediaEvent)]⟩
                | none => ⟨s, [(connectionID, twilioMediaEvent)]⟩
            | none => ⟨s, []⟩
      else ⟨s, []⟩

/-- One iteration's input to the listener's blocking `ReadMessage`. -/
inductive ReadResult where
  | msg : RawMessage → ReadResult
  | readError : ReadResult

/-- `eventListener` (src/cmd/main.go:186) over a finite prefix of the
read stream.  On a read error it logs and `break`s — it does NOT remove the
client entry or unbind the streamSID.  An exhausted list models a listener
still blocked in `ReadMessage`. -/
def eventListener (s : ServerState) (gw : GatewayResult)
    (connectionID : ConnectionID) : List ReadResult → ListenStep
  | [] => ⟨s, []⟩
  | ReadResult.readError :: _ => ⟨s, []⟩
  | ReadResult.msg m :: rest =>
      let step := handleEvent s gw connectionID m
      let later := eventListener step.state gw connectionID rest
      ⟨later.state, step.delivered ++ later.delivered⟩

/-! ## Lock/I-O traces

For the locking-discipline claim, each function body is transcribed as the
sequence of lock, unlock, map and I/O actions it performs, in program
order (deferred unlocks at function exit, in LIFO order).  A function
respects the discipline when no backend or gateway I/O action occurs while
any lock is held. -/

/-- The two mutexes of src/cmd/main.go (`part_001` only has
`clientsMu`). -/
inductive LockID where
  | clientsMu : LockID
  | streamSIDMu : LockID
deriving Repr, DecidableEq

inductive Action where
  | lock : LockID → Action
  | unlock : LockID → Action
  | mapOp : LockID → Action
  | backendIO : Action
  | gatewayIO : Action
  | closeHandle : Action
deriving Repr, DecidableEq

/-- Is a backend or gateway I/O action performed somewhere in the trace
while at least one lock is held?  `held` is the multiset of locks currently
held. -/
def anyIOUnderLock : List LockID → List Action → Bool
  | _, [] => false
  | held, Action.lock l :: rest => anyIOUnderLock (l :: held) rest
  | held, Action.unlock l :: rest => anyIOUnderLock (held.erase l) rest
  | held, Action.backendIO :: rest => !held.isEmpty || anyIOUnderLock held rest
  | held, Action.gatewayIO :: rest => !held.isEmpty || anyIOUnderLock held rest
  | held, Action.mapOp _ :: rest => anyIOUnderLock held rest
  | held, Action.closeHandle :: rest => anyIOUnderLock held rest

/-- src/cmd/main.go:301 `forwardMessageToOpenAI`, success path:
`clientsMu.Lock()`, map read, `clientsMu.Unlock()`, then
`client.WriteJSON` on the backend socket. -/
def forwardTraceMain : List Action :=
  [Action.lock LockID.clientsMu, Action.mapOp LockID.clientsMu,
   Action.unlock LockID.clientsMu, Action.backendIO]

/-- src/unnamed/part_001:217 `forwardMessageToOpenAI`, success path:
`clientsMu.Lock()` with `defer clientsMu.Unlock()`, map read, then
`client.WriteMessage` — the backend write happens BEFORE the deferred
unlock runs, i.e. while `clientsMu` is held. -/
def forwardTracePart001 : List Action :=
  [Action.lock LockID.clientsMu, Action.mapOp LockID.clientsMu,
   Action.backendIO, Action.unlock LockID.clientsMu]

/-- src/cmd/main.go:146 `handleEvent`, delivery path: `streamSIDMu` held
only across the map read, then the gateway `PostToConnection`. -/
def handleEventTraceMain : List Action :=
  [Action.lock LockID.streamSIDMu, Action.mapOp LockID.streamSIDMu,
   Action.unlock LockID.streamSIDMu, Action.gatewayIO]

/-- src/cmd/main.go:201 `connectToOpenAI`, success path: dial (backend
I/O) before any lock, map write under `clientsMu`, config `WriteJSON`
after the unlock. -/
def connectTraceMain : List Action :=
  [Action.backendIO, Action.lock LockID.clientsMu,
   Action.mapOp LockID.clientsMu, Action.unlock LockID.clientsMu,
   Action.backendIO]

/-- src/cmd/main.go:373 `defaultHandler`, `"start"` path: map write under
`streamSIDMu`, no I/O. -/
def startTraceMain : List Action :=
  [Action.lock LockID.streamSIDMu, Action.mapOp LockID.streamSIDMu,
   Action.unlock LockID.streamSIDMu]

/-- src/cmd/main.go:266 `disconnectHandler`: both locks deferred-unlocked
at exit (LIFO), `client.Close()` under `clientsMu`; no backend write or
gateway call. -/
def disconnectTraceMain : List Action :=
  [Action.lock LockID.clientsMu, Action.mapOp LockID.clientsMu,
   Action.closeHandle, Action.mapOp LockID.clientsMu,
   Action.lock LockID.streamSIDMu, Action.mapOp LockID.streamSIDMu,
   Action.mapOp LockID.streamSIDMu, Action.unlock LockID.streamSIDMu,
   Action.unlock LockID.clientsMu]

/-- A trace respects the spec's locking discipline when it performs no
backend or gateway I/O while holding a lock. -/
def respectsLockDiscipline (t : List Action) : Prop :=
  anyIOUnderLock [] t = false

instance (t : List Action) : Decidable (respectsLockDiscipline t) := by
  unfold respectsLockDiscipline; infer_instance

/-! ## Helper lemmas -/

/-- The deliveries `handleEvent` makes, as a function of the parse results
and the stream binding alone. -/
def deliveredOf (s : ServerState) (connectionID : ConnectionID)
    (message : RawMessage) : List (ConnectionID × TwilioMediaEvent) :=
  match unmarshalGenericEvent message with
  | none => []
  | some event =>
      if event.type = "response.audio.delta" then
        match unmarshalAudioDeltaEvent message with
        | none => []
        | some audioDelta =>
            match alistLookup s.connectionToStreamSID connectionID with
            | some streamSID => [(connectionID, createTwilioMediaEvent streamSID audioDelta)]
            | none => []
      else []

theorem handleEvent_eq (s : ServerState) (gw : GatewayResult)
    (id : ConnectionID) (m : RawMessage) :
    handleEvent s gw id m = ⟨s, deliveredOf s id m⟩ := by
  unfold handleEvent deliveredOf
  cases unmarshalGenericEvent m with
  | none => rfl
  | some event =>
    by_cases ht : event.type = "response.audio.delta"
    · simp only [if_pos ht]
      cases unmarshalAudioDeltaEvent m with
      | none => rfl
      | some audioDelta =>
        cases alistLookup s.connectionToStreamSID id with
        | none => rfl
        | some streamSID => cases gw <;> rfl
    · simp only [if_neg ht]

theorem eventListener_cons_msg (s : ServerState) (gw : GatewayResult)
    (id : ConnectionID) (m : RawMessage) (rest : List ReadResult) :
    eventListener s gw id (ReadResult.msg m :: rest)
      = ⟨(eventListener s gw id rest).state,
         deliveredOf s id m ++ (eventListener s gw id rest).delivered⟩ := by
  show (⟨(eventListener (handleEvent s gw id m).state gw id rest).state,
         (handleEvent s gw id m).delivered
           ++ (eventListener (handleEvent s gw id m).state gw id rest).delivered⟩
        : ListenStep)
      = _
  rw [handleEvent_eq]

/-- A well-formed `response.audio.delta` frame carrying payload `d`. -/
def deltaMessage (d : String) : RawMessage :=
  RawMessage.value (JValue.jobj
    [("type", JValue.jstr "response.audio.delta"), ("delta", JValue.jstr d)])

theorem unmarshalGeneric_deltaMessage (d : String) :
    unmarshalGenericEvent (deltaMessage d)
      = some { type := "response.audio.delta" } := rfl

theorem unmarshalAudioDelta_deltaMessage (d : String) :
    unmarshalAudioDeltaEvent (deltaMessage d) = some { delta := d } := rfl

theorem deliveredOf_deltaMessage (s : ServerState) (id : ConnectionID)
    (sid : String) (h : alistLookup s.connectionToStreamSID id = some sid)
    (d : String) :
    deliveredOf s id (deltaMessage d)
      = [(id, createTwilioMediaEvent sid { delta := d })] := by
  unfold deliveredOf
  rw [unmarshalGeneric_deltaMessage, unmarshalAudioDelta_deltaMessage]
  simp [h]

/-- Running the listener over a stream of well-formed delta frames while
`sid` is bound for `id`: the state is untouched and each delta yields one
translated media frame, in order. -/
theorem eventListener_deltas (s : ServerState) (gw : GatewayResult)
    (id : ConnectionID) (sid : String)
    (h : alistLookup s.connectionToStreamSID id = some sid)
    (ds : List String) :
    eventListener s gw id (ds.map fun d => ReadResult.msg (deltaMessage d))
      = ⟨s, ds.map fun d => (id, createTwilioMediaEvent sid { delta := d })⟩ := by
  induction ds with
  | nil => rfl
  | cons d rest ih =>
    rw [List.map_cons, eventListener_cons_msg, ih,
        deliveredOf_deltaMessage s id sid h d]
    rfl

/-- `disconnectHandler` on a well-formed body: removes both bindings,
records the close of the handle when one was registered, answers 200. -/
theorem disconnectHandler_eq (s : ServerState) (id : ConnectionID) :
    disconnectHandler s (some { connectionID := id })
      = ({ clients := alistRemove s.clients id
           connectionToStreamSID := alistRemove s.connectionToStreamSID id
           nextHandle := s.nextHandle
           closedHandles :=
             match alistLookup s.clients id with
             | some h => h :: s.closedHandles
             | none => s.closedHandles },
         200) := by
  unfold disconnectHandler
  cases hc : alistLookup s.clients id with
  | none =>
    cases hs : alistLookup s.connectionToStreamSID id with
    | none =>
      simp only [hc, hs, alistRemove_of_lookup_none _ _ hc,
        alistRemove_of_lookup_none _ _ hs]
    | some sid =>
      simp only [hc, hs, alistRemove_of_lookup_none _ _ hc]
  | some h =>
    cases hs : alistLookup s.connectionToStreamSID id with
    | none =>
      simp only [hc, hs, alistRemove_of_lookup_none _ _ hs]
    | some sid =>
      simp only [hc, hs]

/-! ## Claim C1 — register and the prior backend handle -/

/-- State after `connect("abc")` on a fresh process: handle 0 registered. -/
def c1FirstState : ServerState :=
  (connectToOpenAI initialState "abc" DialResult.ok).state

/-- State after a second `connect("abc")`: handle 1 registered. -/
def c1SecondState : ServerState :=
  (connectToOpenAI c1FirstState "abc" DialResult.ok).state

/-- C1 counterexample: after a second `connect("abc")`, the prior backend
handle 0 — registered for `"abc"` by the first connect — has NOT been
closed (`closedHandles` does not contain it), while handle 1 is now
installed; so the prior handle is leaked, contradicting the claim that
`register` closes it first and that at most one live handle exists per
id. -/
theorem register_leaves_prior_handle_unclosed :
    alistLookup c1FirstState.clients "abc" = some 0
    ∧ ¬ (0 ∈ c1SecondState.closedHandles)
    ∧ alistLookup c1SecondState.clients "abc" = some 1
    ∧ c1SecondState.closedHandles = [] := by decide

/-- C1 (amended): `connectToOpenAI` replaces any existing Registry entry
for the id with the freshly dialled handle but closes nothing: the
`closedHandles` record is unchanged by a successful connect, the Stream
Context Store is untouched, and no error is returned — so a prior live
handle for the same id is simply leaked. -/
theorem register_overwrites_without_closing (s : ServerState)
    (id : ConnectionID) :
    (connectToOpenAI s id DialResult.ok).state.closedHandles = s.closedHandles
    ∧ alistLookup (connectToOpenAI s id DialResult.ok).state.clients id
        = some s.nextHandle
    ∧ (connectToOpenAI s id DialResult.ok).state.connectionToStreamSID
        = s.connectionToStreamSID
    ∧ (connectToOpenAI s id DialResult.ok).result = none :=
  ⟨rfl, alistLookup_insert _ _ _, rfl, rfl⟩

/-! ## Claim C2 — listener read error must clean up (code bug) -/

/-- C2 (code bug): when the blocking read returns an error the listener
merely breaks out of its loop: the returned state is exactly the input
state, so the id's Registry entry and StreamContext binding survive the
listener's death — the cleanup the spec mandates (`remove(id)`,
`unbind(id)`) never runs.  The spec itself flags this as a baseline
omission that must be fixed. -/
theorem listener_read_error_leaves_state (s : ServerState)
    (gw : GatewayResult) (id : ConnectionID) (rest : List ReadResult) :
    eventListener s gw id (ReadResult.readError :: rest) = ⟨s, []⟩
    ∧ alistLookup (eventListener s gw id
        (ReadResult.readError :: rest)).state.clients id
        = alistLookup s.clients id
    ∧ alistLookup (eventListener s gw id
        (ReadResult.readError :: rest)).state.connectionToStreamSID id
        = alistLookup s.connectionToStreamSID id :=
  ⟨rfl, rfl, rfl⟩

/-! ## Claim C3 — round trip and ordering -/

/-- C3 scenario: `connect("abc")` on a fresh process. -/
def c3Connect : ConnectOutcome := connectToOpenAI initialState "abc" DialResult.ok

/-- C3 scenario: then `{event:"start", streamSid:"SID1"}`. -/
def c3AfterStart : MsgHandlerOutcome :=
  defaultHandler c3Connect.state
    (some { body := { event := "start", streamSID := "SID1",
                      media := { track := "", chunk := "", timestamp := "",
                                 payload := "" } },
            connectionID := "abc" })

/-- C3 scenario: then `{event:"media", media:{payload:"QUJD"}}`. -/
def c3Media : MsgHandlerOutcome :=
  defaultHandler c3AfterStart.state
    (some { body := { event := "media", streamSID := "SID1",
                      media := { track := "", chunk := "", timestamp := "",
                                 payload := "QUJD" } },
            connectionID := "abc" })

/-- C3: after `connect("abc")`, a start frame binding `SID1` and a media
frame with payload `QUJD`, the backend connection (handle 0) receives
exactly the event `input_audio_buffer.append`/`QUJD` — whose Go JSON
encoding is exactly the claimed bytes — and every backend
`response.audio.delta` is translated to the telephony frame
`event="media"`, `streamSid="SID1"`, `media.payload` = the delta (the
remaining media fields at Go's zero value `""`, which is what the claimed
frame `\x7b"event":"media","streamSid":"SID1","media":\x7b"payload":...\x7d\x7d`
unmarshals to); N deltas produce exactly N such frames in order. -/
theorem roundtrip_ordering :
    c3Media.backendWrites
      = [(0, { type := "input_audio_buffer.append", audio := "QUJD" })]
    ∧ marshalAudioEvent { type := "input_audio_buffer.append", audio := "QUJD" }
        = "\x7b\"type\":\"input_audio_buffer.append\",\"audio\":\"QUJD\"\x7d"
    ∧ c3Media.status = 200
    ∧ createTwilioMediaEvent "SID1" { delta := "eHl6" }
        = { event := "media", streamSID := "SID1",
            media := { track := "", chunk := "", timestamp := "",
                       payload := "eHl6" } }
    ∧ (∀ ds : List String,
        (eventListener c3Media.state GatewayResult.ok "abc"
            (ds.map fun d => ReadResult.msg (deltaMessage d))).delivered
          = ds.map fun d => ("abc", createTwilioMediaEvent "SID1" { delta := d })) := by
  refine ⟨by decide, by decide, by decide, by decide, fun ds => ?_⟩
  rw [eventListener_deltas c3Media.state GatewayResult.ok "abc" "SID1"
    (by decide) ds]

/-! ## Claim C4 — translate-mode forwarding policy -/

/-- C4: the listener delivers to the gateway if and only if the frame
unmarshals with type `response.audio.delta`, its delta unmarshals, and a
streamSID is bound for the id; in every other case (other type, frame that
fails either unmarshal, or no binding) it drops the frame without touching
any state, and the loop continues with the remaining frames either way. -/
theorem translate_mode_delivery_iff (s : ServerState) (gw : GatewayResult)
    (id : ConnectionID) (m : RawMessage) :
    ((handleEvent s gw id m).delivered ≠ []
      ↔ unmarshalGenericEvent m = some { type := "response.audio.delta" }
        ∧ (unmarshalAudioDeltaEvent m).isSome
        ∧ (alistLookup s.connectionToStreamSID id).isSome)
    ∧ (handleEvent s gw id m).state = s
    ∧ (∀ rest, eventListener s gw id (ReadResult.msg m :: rest)
        = ⟨(eventListener s gw id rest).state,
           (handleEvent s gw id m).delivered
             ++ (eventListener s gw id rest).delivered⟩) := by
  refine ⟨?_, by rw [handleEvent_eq], fun rest => by
    rw [eventListener_cons_msg, handleEvent_eq]⟩
  rw [handleEvent_eq]
  show deliveredOf s id m ≠ [] ↔ _
  unfold deliveredOf
  cases hg : unmarshalGenericEvent m with
  | none => simp
  | some event =>
    obtain ⟨t⟩ := event
    by_cases ht : t = "response.audio.delta"
    · subst ht
      simp only [if_pos rfl]
      cases hd : unmarshalAudioDeltaEvent m with
      | none => simp
      | some audioDelta =>
        cases hl : alistLookup s.connectionToStreamSID id with
        | none => simp
        | some streamSID => simp
    · simp [ht]

/-! ## Claim C5 — media with no bound streamID (not dropped) -/

/-- A registered session for `"abc"` (handle 0) with no streamSID bound. -/
def c5SessionNoStream : ServerState :=
  { clients := [("abc", 0)], connectionToStreamSID := [], nextHandle := 1,
    closedHandles := [] }

/-- A `"media"` telephony frame for `id` carrying `payload`. -/
def mediaFrame (id : ConnectionID) (payload : String) :
    TwilioMediaGatewayEvent :=
  { body := { event := "media", streamSID := "",
              media := { track := "", chunk := "", timestamp := "",
                         payload := payload } },
    connectionID := id }

/-- C5 counterexample: for id `"abc"` with NO bound streamID, a media
frame is not dropped — with a Session registered its payload IS written to
the backend (and 200 returned), and with no Session registered an error
(410) IS returned; both halves of the claim fail. -/
theorem media_without_stream_not_dropped :
    alistLookup c5SessionNoStream.connectionToStreamSID "abc" = none
    ∧ ¬ ((defaultHandler c5SessionNoStream
          (some (mediaFrame "abc" "QUJD"))).backendWrites = [])
    ∧ (defaultHandler c5SessionNoStream
        (some (mediaFrame "abc" "QUJD"))).backendWrites
        = [(0, { type := "input_audio_buffer.append", audio := "QUJD" })]
    ∧ alistLookup initialState.connectionToStreamSID "abc" = none
    ∧ (defaultHandler initialState (some (mediaFrame "abc" "QUJD"))).status
        = 410 := by decide

/-- C5 (amended): an inbound `"media"` frame is routed by the Session
Registry alone — the Stream Context Store is never consulted on this path.
When a Session is registered for the id the payload is forwarded to its
backend handle and 200 returned, whether or not a streamID is bound; when
no Session is registered nothing is written and the error surfaces as 410.
State is unchanged in both cases. -/
theorem media_routed_by_registry_alone (s : ServerState) (id : ConnectionID)
    (sid : String) (info : TwilioMediaInfo) :
    defaultHandler s
        (some { body := { event := "media", streamSID := sid, media := info },
                connectionID := id })
      = match alistLookup s.clients id with
        | some h =>
            { state := s, status := 200,
              backendWrites :=
                [(h, { type := "input_audio_buffer.append",
                       audio := info.payload })] }
        | none => { state := s, status := 410, backendWrites := [] } := by
  simp only [defaultHandler, processMediaEvent, forwardMessageToOpenAI,
    twilioToOpenAIEvent]
  cases hc : alistLookup s.clients id with
  | none => simp [hc]
  | some h => simp [hc]

/-! ## Claim C6 — DeliveryGone and session cleanup -/

/-- A session for `"abc"` (handle 0) with streamSID `"SID1"` bound. -/
def c6Bound : ServerState :=
  { clients := [("abc", 0)], connectionToStreamSID := [("abc", "SID1")],
    nextHandle := 1, closedHandles := [] }

/-- C6 counterexample: the listener delivers a translated delta frame and
the gateway reports the client connection gone, yet after this pass the
Session is still registered (lookup yields handle 0) and the state is
fully unchanged — the claimed Registry removal never happens. -/
theorem delivery_gone_session_survives :
    (eventListener c6Bound GatewayResult.gone "abc"
        [ReadResult.msg (deltaMessage "eHl6")]).delivered
      = [("abc", createTwilioMediaEvent "SID1" { delta := "eHl6" })]
    ∧ (eventListener c6Bound GatewayResult.gone "abc"
        [ReadResult.msg (deltaMessage "eHl6")]).state = c6Bound
    ∧ alistLookup (eventListener c6Bound GatewayResult.gone "abc"
        [ReadResult.msg (deltaMessage "eHl6")]).state.clients "abc"
        = some 0 := by decide

/-- C6 (amended): `sendMessageToClient` wraps every gateway failure in one
generic error; the listener ignores delivery errors entirely — its outcome
is identical for a gone and a transient failure, and in both cases the
state (Registry and Stream Context Store included) is left exactly as it
was, so no cleanup ever follows a gone result. -/
theorem delivery_failures_ignored (s : ServerState) (id : ConnectionID)
    (m : RawMessage) :
    (handleEvent s GatewayResult.gone id m).state = s
    ∧ handleEvent s GatewayResult.gone id m
        = handleEvent s GatewayResult.transientFailure id m
    ∧ (sendMessageToClient GatewayResult.gone).isSome
    ∧ (sendMessageToClient GatewayResult.transientFailure).isSome :=
  ⟨by rw [handleEvent_eq], by rw [handleEvent_eq, handleEvent_eq], rfl, rfl⟩

/-! ## Claim C7 — dial failure registers nothing -/

/-- C7: when the backend dial fails, `connectToOpenAI` returns an error
having registered nothing — the state (Registry, Stream Context Store,
handle counter) is exactly the input state, no configuration event is
written, no listener is started — and `connectHandler` surfaces it as
HTTP 410. -/
theorem connect_dial_failure_registers_nothing (s : ServerState)
    (id : ConnectionID) (code : Int) :
    connectToOpenAI s id (DialResult.fail code)
      = { state := s, result := some (ConnectError.dialFailed code),
          configWrites := [], listenerStarted := none }
    ∧ connectHandler s (some { connectionID := id }) (DialResult.fail code)
      = { state := s, status := 410, configWrites := [],
          listenerStarted := none } :=
  ⟨rfl, rfl⟩

/-! ## Claim C8 — disconnect is total and idempotent -/

/-- C8: `disconnect(id)` always answers 200; afterwards neither map has an
entry for `id`; a registered handle (if any) is closed; on an id unknown to
both maps the state is unchanged; and running it a second time answers 200
again and changes nothing further. -/
theorem disconnect_idempotent_always_succeeds (s : ServerState)
    (id : ConnectionID) :
    (disconnectHandler s (some { connectionID := id })).2 = 200
    ∧ alistLookup (disconnectHandler s
        (some { connectionID := id })).1.clients id = none
    ∧ alistLookup (disconnectHandler s
        (some { connectionID := id })).1.connectionToStreamSID id = none
    ∧ (∀ h, alistLookup s.clients id = some h →
        h ∈ (disconnectHandler s (some { connectionID := id })).1.closedHandles)
    ∧ (alistLookup s.clients id = none →
        alistLookup s.connectionToStreamSID id = none →
        (disconnectHandler s (some { connectionID := id })).1 = s)
    ∧ disconnectHandler (disconnectHandler s (some { connectionID := id })).1
          (some { connectionID := id })
        = ((disconnectHandler s (some { connectionID := id })).1, 200) := by
  rw [disconnectHandler_eq]
  refine ⟨rfl, alistLookup_remove _ _, alistLookup_remove _ _, ?_, ?_, ?_⟩
  · intro h hh
    simp only [hh]
    exact List.mem_cons_self _ _
  · intro hc hs
    simp only [hc]
    rw [alistRemove_of_lookup_none _ _ hc, alistRemove_of_lookup_none _ _ hs]
  · rw [disconnectHandler_eq]
    simp only [alistRemove_remove, alistLookup_remove]

/-- C8 witness: on the empty initial state, `"abc"` is unknown to both
maps and `disconnect("abc")` changes no state. -/
theorem disconnect_idempotent_always_succeeds_witness :
    alistLookup initialState.clients "abc" = none
    ∧ alistLookup initialState.connectionToStreamSID "abc" = none
    ∧ (disconnectHandler initialState (some { connectionID := "abc" })).1
        = initialState :=
  ⟨rfl, rfl,
    (disconnect_idempotent_always_succeeds initialState "abc").2.2.2.2.1
      rfl rfl⟩

/-! ## Claim C9 — locks are never held across backend or gateway I/O -/

/-- C9 counterexample: in the revision `src/unnamed/part_001`,
`forwardMessageToOpenAI` takes `clientsMu` with a deferred unlock and then
performs the backend `WriteMessage` before the unlock runs — backend I/O
while the Registry lock is held, so the claim is false of this
repository's code. -/
theorem part001_forward_breaks_lock_discipline :
    ¬ respectsLockDiscipline forwardTracePart001 := by decide

/-- C9 (amended): in `src/cmd/main.go` the media-forward, listener
delivery, connect and start paths (and `disconnectHandler`, which performs
no backend or gateway I/O) all release the map locks before any backend or
gateway I/O; but in the revision `src/unnamed/part_001`,
`forwardMessageToOpenAI` performs the backend write while holding
`clientsMu`, so in that revision a media forward for one id can block
concurrent operations on other ids behind backend I/O. -/
theorem lock_discipline_by_revision :
    respectsLockDiscipline forwardTraceMain
    ∧ respectsLockDiscipline handleEventTraceMain
    ∧ respectsLockDiscipline connectTraceMain
    ∧ respectsLockDiscipline startTraceMain
    ∧ respectsLockDiscipline disconnectTraceMain
    ∧ ¬ respectsLockDiscipline forwardTracePart001 := by decide

/-! ## Claim C10 — "start" binds unconditionally, latest wins -/

/-- State after two `"start"` frames for `id` binding `sid1` then `sid2`. -/
def afterTwoStarts (s : ServerState) (id : ConnectionID)
    (sid1 sid2 : String) (i1 i2 : TwilioMediaInfo) : ServerState :=
  (defaultHandler
    (defaultHandler s
      (some { body := { event := "start", streamSID := sid1, media := i1 },
              connectionID := id })).state
    (some { body := { event := "start", streamSID := sid2, media := i2 },
            connectionID := id })).state

/-- C10: a `"start"` frame binds its streamSid unconditionally — it
answers 200 and overwrites any existing binding for the id without
consulting the Registry (for every state, hence also when no Session is
registered; the Registry component is untouched).  After two starts the
second streamSid is bound, and a subsequent `response.audio.delta` is
translated with it. -/
theorem start_binds_unconditionally (s : ServerState) (id : ConnectionID)
    (sid1 sid2 : String) (i1 i2 : TwilioMediaInfo) (gw : GatewayResult)
    (d : String) :
    defaultHandler s
        (some { body := { event := "start", streamSID := sid1, media := i1 },
                connectionID := id })
      = { state :=
            { s with connectionToStreamSID :=
                       alistInsert s.connectionToStreamSID id sid1 },
          status := 200, backendWrites := [] }
    ∧ alistLookup (afterTwoStarts s id sid1 sid2 i1 i2).connectionToStreamSID
        id = some sid2
    ∧ (afterTwoStarts s id sid1 sid2 i1 i2).clients = s.clients
    ∧ (handleEvent (afterTwoStarts s id sid1 sid2 i1 i2) gw id
        (deltaMessage d)).delivered
        = [(id, createTwilioMediaEvent sid2 { delta := d })] := by
  refine ⟨rfl, alistLookup_insert _ _ _, rfl, ?_⟩
  rw [handleEvent_eq]
  exact deliveredOf_deltaMessage _ id sid2 (alistLookup_insert _ _ _) d

end KiutRealtime
